import Mathlib

/-!
Shallow embedding of the client-side session / step-up authentication core of
the secure-mfa-login-system repository, together with theorems settling the
frozen claims about it.

The embedded code:
* `src/frontend/src/utils/auth.ts` — the `AuthManager` singleton
  (`loadFromStorage`, `setTokens`, `getAccessToken`, `getRefreshToken`,
  `getUser`, `isAuthenticated`, `clearAuth`, `refreshTokens`) and the
  `authFetch` gateway;
* `src/frontend/src/pages/Login.tsx` — `handleSubmit` (the part that runs
  after the login exchange resolves);
* the `MFAVerify` page (first variant in `src/unnamed/part_000`) —
  `handleVerify`, `handleChange`, and the sign-in-with-a-different-account
  button handler.

Modelling conventions:
* `localStorage` / `sessionStorage` are finite string maps, embedded as
  functions `String → Option String`; `setItem`, `getItem`, `removeItem`
  mirror the Web Storage API.
* JavaScript truthiness of a nullable string (`!x` in the source) is
  `truthy : Option String → Bool`: `null` and the empty string are falsy.
* Network effects are made explicit: every embedded operation that reaches
  the transport returns the list of issued `NetCall`s, and the outcome of
  each exchange is a parameter of the operation (the embedding is
  deterministic in the oracle describing what the server answered).
* `async` code is sequentialized; for the one claim about concurrency the
  body of `refreshTokens` is split at its unique shared-state-relevant
  suspension point (the `await fetch`) into `refreshSeg1` / `refreshSeg2`,
  and the event-loop interleaving of N concurrent callers is a fold over
  those segments.
-/

/-- Web Storage: a finite map from keys to string values. -/
def Storage : Type := String → Option String

/-- `storage.setItem(k, v)`. -/
def setItem (st : Storage) (k v : String) : Storage :=
  fun q => if q = k then some v else st q

/-- `storage.getItem(k)` (returns `null` when the key is absent). -/
def getItem (st : Storage) (k : String) : Option String :=
  st k

/-- `storage.removeItem(k)`. -/
def removeItem (st : Storage) (k : String) : Storage :=
  fun q => if q = k then none else st q

/-- A storage with no keys. -/
def emptyStorage : Storage := fun _ => none

/-- JavaScript truthiness of a nullable string: `null` and `""` are falsy,
every other string is truthy. -/
def truthy : Option String → Bool
  | none => false
  | some s => !s.isEmpty

/-- The `AuthTokens` interface of `auth.ts`: `tokenType` and `expiresIn`
are optional fields. -/
structure AuthTokens where
  accessToken : String
  refreshToken : String
  tokenType : Option String
  expiresIn : Option Int
deriving Repr, DecidableEq

/-- The `User` interface of `auth.ts`. -/
structure User where
  id : String
  email : String
  mfaEnabled : Bool
deriving Repr, DecidableEq

/-- The mutable state of the `AuthManager` singleton: its three private
fields plus the `localStorage` it writes through to. -/
structure AuthState where
  accessToken : Option String
  refreshToken : Option String
  user : Option User
  storage : Storage

/-- `AuthManager.loadFromStorage`, as run by the constructor on a fresh
instance (all fields `null`): both token fields are read independently from
storage; a present but unparsable `user` record triggers `clearAuth`.
`parseUser` stands for `JSON.parse` on the stored user record (`none`
models a parse failure, which the source catches). -/
def loadFromStorage (parseUser : String → Option User) (st : Storage) : AuthState :=
  let s : AuthState :=
    { accessToken := getItem st "accessToken"
      refreshToken := getItem st "refreshToken"
      user := none
      storage := st }
  match getItem st "user" with
  | some userData =>
    match parseUser userData with
    | some u => { s with user := some u }
    | none =>
      { accessToken := none, refreshToken := none, user := none
        storage := removeItem (removeItem (removeItem st "accessToken") "refreshToken") "user" }
  | none => s

/-- `AuthManager.setTokens`: writes both token fields and persists them;
`tokenType` and `expiresIn` are persisted only when truthy (`0` and the
empty string are falsy in the source's `if` guards). -/
def setTokens (tokens : AuthTokens) (s : AuthState) : AuthState :=
  let st1 := setItem (setItem s.storage "accessToken" tokens.accessToken)
      "refreshToken" tokens.refreshToken
  let st2 := match tokens.tokenType with
    | some t => if t.isEmpty then st1 else setItem st1 "tokenType" t
    | none => st1
  let st3 := match tokens.expiresIn with
    | some n => if n = 0 then st2 else setItem st2 "expiresIn" (toString n)
    | none => st2
  { accessToken := some tokens.accessToken
    refreshToken := some tokens.refreshToken
    user := s.user
    storage := st3 }

/-- `AuthManager.getAccessToken`. -/
def getAccessToken (s : AuthState) : Option String := s.accessToken

/-- `AuthManager.getRefreshToken`. -/
def getRefreshToken (s : AuthState) : Option String := s.refreshToken

/-- `AuthManager.getUser`. -/
def getUser (s : AuthState) : Option User := s.user

/-- `AuthManager.isAuthenticated`: `!!this.accessToken`. -/
def isAuthenticated (s : AuthState) : Bool := truthy s.accessToken

/-- `AuthManager.clearAuth`: nulls the three fields and removes the three
persisted keys (`tokenType` / `expiresIn` are left behind, faithfully to
the source). -/
def clearAuth (s : AuthState) : AuthState :=
  { accessToken := none
    refreshToken := none
    user := none
    storage := removeItem (removeItem (removeItem s.storage "accessToken") "refreshToken") "user" }

/-- One request issued to the transport. Headers are finite string maps. -/
inductive NetCall where
  /-- a `fetch(url, ...)` issued by `authFetch` with the given headers -/
  | httpReq (url : String) (headers : String → Option String)
  /-- the `POST /auth/refresh` exchange of `refreshTokens`, carrying the
  refresh token it sent -/
  | refreshReq (refreshToken : String)
  /-- `authAPI.login` with email, password and TOTP code -/
  | loginReq (email password code : String)
  /-- `mfaAPI.verifyMFA` with bearer token and code -/
  | mfaVerifyReq (token code : String)

/-- Number of `httpReq` entries in a trace. -/
def countHttp : List NetCall → Nat
  | [] => 0
  | NetCall.httpReq _ _ :: r => countHttp r + 1
  | _ :: r => countHttp r

/-- Number of `refreshReq` entries in a trace. -/
def countRefresh : List NetCall → Nat
  | [] => 0
  | NetCall.refreshReq _ :: r => countRefresh r + 1
  | _ :: r => countRefresh r

/-- The server side of one `POST /auth/refresh` exchange, as observed by
`refreshTokens`: `ok` is a 2xx response whose body carried `data.tokens`;
`notOk` is a response with `response.ok` false; `exn` is a rejected fetch
(network error) or a body that failed to parse — both land in the same
`catch` block of the source. -/
inductive RefreshResult where
  | ok (tokens : AuthTokens)
  | notOk
  | exn
deriving Repr, DecidableEq

/-- `AuthManager.refreshTokens`, sequential form: guard on a truthy refresh
token, then one refresh exchange whose outcome `net` decides between
`setTokens` (success) and `clearAuth` (failure). Returns the boolean result,
the state after the call, and the issued network calls. -/
def refreshTokens (net : RefreshResult) (s : AuthState) :
    Bool × AuthState × List NetCall :=
  if truthy s.refreshToken then
    let rt := (s.refreshToken).getD ""
    match net with
    | RefreshResult.ok tokens => (true, setTokens tokens s, [NetCall.refreshReq rt])
    | RefreshResult.notOk => (false, clearAuth s, [NetCall.refreshReq rt])
    | RefreshResult.exn => (false, clearAuth s, [NetCall.refreshReq rt])
  else (false, s, [])

/-- An HTTP response as `authFetch` inspects it: only the status code
matters to the gateway's control flow. -/
structure HttpResponse where
  status : Nat
deriving Repr, DecidableEq

/-- The caller-supplied `options` of `authFetch`, restricted to the part the
gateway itself inspects: `options.headers` (everything else is spread
through unchanged). -/
structure RequestOptions where
  headers : String → Option String

/-- The header object `{ Content-Type, Authorization: Bearer token,
...options.headers }`: a caller entry overrides the defaults on the same
key, every other caller entry is added. -/
def buildHeaders (token : String) (caller : String → Option String) :
    String → Option String :=
  fun k =>
    match caller k with
    | some v => some v
    | none =>
      if k = "Content-Type" then some "application/json"
      else if k = "Authorization" then some ("Bearer " ++ token) else none

/-- `headers[k] = v`: JavaScript property assignment on the header object. -/
def setHeader (hs : String → Option String) (k v : String) :
    String → Option String :=
  fun q => if q = k then some v else hs q

/-- The result of `authFetch` as its caller observes it: either the thrown
`Error("No access token available")` or a returned response. -/
inductive AuthFetchResult where
  | noToken
  | response (r : HttpResponse)
deriving Repr, DecidableEq

/-- `authFetch(url, options)`: guard on a truthy access token; send the
request with default-plus-caller headers; on a 401 first response run
`refreshTokens` and, only when it succeeds, overwrite the `Authorization`
header with the renewed bearer token and resend once, returning the second
response; otherwise return the first response. `resp1` / `resp2` are the
transport's answers to the first and (potential) second send, `net` the
answer to the refresh exchange. Returns the result, the final state, and
the trace of issued network calls. -/
def authFetch (url : String) (opts : RequestOptions)
    (resp1 resp2 : HttpResponse) (net : RefreshResult) (s : AuthState) :
    AuthFetchResult × AuthState × List NetCall :=
  if truthy s.accessToken then
    let token := (s.accessToken).getD ""
    let headers := buildHeaders token opts.headers
    let call1 := NetCall.httpReq url headers
    if resp1.status = 401 then
      match refreshTokens net s with
      | (true, s', rcalls) =>
        let newToken := (getAccessToken s').getD ""
        let headers2 := setHeader headers "Authorization" ("Bearer " ++ newToken)
        (AuthFetchResult.response resp2, s', call1 :: rcalls ++ [NetCall.httpReq url headers2])
      | (false, s', rcalls) =>
        (AuthFetchResult.response resp1, s', call1 :: rcalls)
    else (AuthFetchResult.response resp1, s, [call1])
  else (AuthFetchResult.noToken, s, [])

/-! ### Event-loop model of concurrent `refreshTokens` calls

`refreshTokens` touches shared state at two places separated by its only
`await` on the shared-state path: before the `await fetch` it only *reads*
`this.refreshToken` (and hands the refresh request to the transport), and
after the response arrives it writes through `setTokens` or `clearAuth`.
Under the single-threaded event loop, N callers that all arrive while the
exchange of the first is still outstanding each run the pre-await segment
against the same state before any post-await segment runs. -/

/-- Where a `refreshTokens` call stands after its synchronous prefix. -/
inductive RefreshPhase where
  /-- the guard found no truthy refresh token: returned `false`, no exchange -/
  | finishedEarly
  /-- suspended at `await fetch`, having issued the refresh exchange -/
  | awaitingResponse (rt : String)
deriving Repr, DecidableEq

/-- The prefix of `refreshTokens` from entry to the `await fetch`: reads the
guard and, when it passes, issues the refresh exchange. Writes nothing. -/
def refreshSeg1 (s : AuthState) : RefreshPhase × List NetCall :=
  if truthy s.refreshToken then
    let rt := (s.refreshToken).getD ""
    (RefreshPhase.awaitingResponse rt, [NetCall.refreshReq rt])
  else (RefreshPhase.finishedEarly, [])

/-- The suffix of `refreshTokens` from the arrival of the response: applies
`setTokens` on success and `clearAuth` on failure, returning the boolean. -/
def refreshSeg2 (net : RefreshResult) (s : AuthState) : Bool × AuthState :=
  match net with
  | RefreshResult.ok tokens => (true, setTokens tokens s)
  | RefreshResult.notOk => (false, clearAuth s)
  | RefreshResult.exn => (false, clearAuth s)

/-- N concurrent `refreshTokens` calls, one per entry of `nets` (the server
outcome each one's exchange would get): every caller first runs
`refreshSeg1` against the initial state (the pre-await code writes nothing,
so all of them observe `s0`), then the responses are delivered in order and
each suspended caller runs `refreshSeg2` on the state left by the previous
one. Returns each caller's boolean result, the final state, and all issued
network calls. -/
def runConcurrentRefresh (nets : List RefreshResult) (s0 : AuthState) :
    List Bool × AuthState × List NetCall :=
  let starts := nets.map (fun net => (refreshSeg1 s0, net))
  let calls := (starts.map (fun p => p.1.2)).flatten
  let fin := starts.foldl
    (fun (acc : List Bool × AuthState) p =>
      match p.1.1 with
      | RefreshPhase.finishedEarly => (acc.1 ++ [false], acc.2)
      | RefreshPhase.awaitingResponse _ =>
        let r := refreshSeg2 p.2 acc.2
        (acc.1 ++ [r.1], r.2))
    ([], s0)
  (fin.1, fin.2, calls)

/-! ### Step-up challenge flow: `Login.handleSubmit` and the first
`MFAVerify` variant of `src/unnamed/part_000` -/

/-- The UI-side state the step-up flow threads: the `AuthManager` state,
the tab's `sessionStorage`, and the route last navigated to. -/
structure FlowState where
  auth : AuthState
  session : Storage
  route : String

/-- The branch `Login.handleSubmit` takes once `authAPI.login` resolves:
`requiresMfa` is a response with a truthy `requires_mfa` flag (checked
first), `grantedTokens` one with a truthy `access_token`, `rejected` every
other resolved response, and `threw` a rejected exchange (caught). -/
inductive LoginOutcome where
  | requiresMfa
  | grantedTokens (t : AuthTokens)
  | rejected
  | threw
deriving Repr, DecidableEq

/-- `Login.handleSubmit` after `authAPI.login(formData)` resolves with
`outcome`. On `requires_mfa` the raw credentials are stashed in
`sessionStorage` under `tempLoginEmail` / `tempLoginPassword` and the flow
navigates to the verify page; on granted tokens the Session Store is set
and the flow navigates to the dashboard; otherwise only an error message is
shown (no state the claims mention changes). -/
def handleSubmit (email password : String) (outcome : LoginOutcome)
    (fs : FlowState) : FlowState :=
  match outcome with
  | LoginOutcome.requiresMfa =>
    { fs with
      session := setItem (setItem fs.session "tempLoginEmail" email)
          "tempLoginPassword" password
      route := "/mfa/verify" }
  | LoginOutcome.grantedTokens t =>
    { fs with auth := setTokens t fs.auth, route := "/dashboard" }
  | LoginOutcome.rejected => fs
  | LoginOutcome.threw => fs

/-- `const verificationCode = code || otp.join("")`: the argument when it
is truthy, else the joined OTP boxes. -/
def resolveCode (code : Option String) (otp : List String) : String :=
  match code with
  | some c => if c.isEmpty then String.join otp else c
  | none => String.join otp

/-- The server side of the `authAPI.login(email, password, totp_code)`
exchange inside `handleVerify`: `ok` resolved with a truthy
`access_token`; `okNoToken` resolved without one (the source then throws
`Error("Login failed")` into its own catch); `err` a rejected exchange. -/
inductive VerifyLoginResult where
  | ok (t : AuthTokens)
  | okNoToken
  | err
deriving Repr, DecidableEq

/-- The server side of the `mfaAPI.verifyMFA` exchange inside
`handleVerify`. -/
inductive VerifyMfaResult where
  | ok
  | err
deriving Repr, DecidableEq

/-- `MFAVerify.handleVerify` (first variant): resolve the code, reject a
code whose length is not 6 locally, then — when `tempLoginEmail` and
`tempLoginPassword` are both truthy in `sessionStorage` — replay the login
exchange with the stored credentials and the code (on success: remove the
stored credentials, set the tokens, go to the dashboard); otherwise verify
the code over `mfaAPI.verifyMFA` with the current access token. Returns
the new flow state, the issued network calls, and the error message set
(if any). -/
def handleVerify (code : Option String) (otp : List String)
    (loginNet : VerifyLoginResult) (mfaNet : VerifyMfaResult)
    (fs : FlowState) : FlowState × List NetCall × Option String :=
  let verificationCode := resolveCode code otp
  if verificationCode.length ≠ 6 then
    (fs, [], some "Please enter a complete 6-digit code")
  else
    let storedEmail := getItem fs.session "tempLoginEmail"
    let storedPassword := getItem fs.session "tempLoginPassword"
    if truthy storedEmail && truthy storedPassword then
      let e := storedEmail.getD ""
      let p := storedPassword.getD ""
      let call := NetCall.loginReq e p verificationCode
      match loginNet with
      | VerifyLoginResult.ok t =>
        ({ fs with
            session := removeItem (removeItem fs.session "tempLoginEmail")
                "tempLoginPassword"
            auth := setTokens t fs.auth
            route := "/dashboard" }, [call], none)
      | VerifyLoginResult.okNoToken => (fs, [call], some "Login failed")
      | VerifyLoginResult.err => (fs, [call], some "Invalid verification code")
    else
      let call := NetCall.mfaVerifyReq ((getAccessToken fs.auth).getD "") verificationCode
      match mfaNet with
      | VerifyMfaResult.ok => ({ fs with route := "/dashboard" }, [call], none)
      | VerifyMfaResult.err => (fs, [call], some "Invalid verification code")

/-- `MFAVerify.handleChange(index, value)` restricted to its effect on the
OTP boxes: a value longer than one character or containing a non-digit is
ignored (`/^\d*$/`), otherwise box `index` is replaced. -/
def handleChange (otp : List String) (index : Nat) (value : String) :
    List String :=
  if value.length > 1 then otp
  else if !(value.all Char.isDigit) then otp
  else otp.set index value

/-- The `Sign in with different account` button of `MFAVerify`: clears the
`AuthManager` state and navigates to the login page — `sessionStorage` is
not touched. This is the abandon exit of the step-up flow. -/
def signInWithDifferentAccount (fs : FlowState) : FlowState :=
  { fs with auth := clearAuth fs.auth, route := "/login" }

/-! ### Concrete states used by counterexamples and witnesses -/

/-- A fresh `AuthManager` before `loadFromStorage`: all fields `null`. -/
def freshState : AuthState :=
  { accessToken := none, refreshToken := none, user := none, storage := emptyStorage }

/-- A `JSON.parse` stand-in that fails on every record. -/
def noUserParse : String → Option User := fun _ => none

/-- A `localStorage` holding an access token but no refresh token. -/
def storageAccessOnly : Storage := setItem emptyStorage "accessToken" "acc0"

/-- The manager state hydrated from `storageAccessOnly`: reachable at
process start whenever the persisted keys are unbalanced. -/
def statePartial : AuthState := loadFromStorage noUserParse storageAccessOnly

/-- A manager state holding a full token pair. -/
def stateFull : AuthState :=
  { accessToken := some "acc0", refreshToken := some "ref0", user := none
    storage := setItem storageAccessOnly "refreshToken" "ref0" }

/-- A concrete renewed token pair. -/
def renewedTokens : AuthTokens :=
  { accessToken := "acc1", refreshToken := "ref1", tokenType := none, expiresIn := none }

/-- Both token fields present together or absent together. -/
def bothOrNone (s : AuthState) : Prop :=
  s.accessToken.isSome = s.refreshToken.isSome

theorem clearAuth_idem (s : AuthState) : clearAuth (clearAuth s) = clearAuth s := by
  unfold clearAuth
  congr 1
  funext q
  simp only [removeItem]
  split_ifs <;> rfl

/-! ### Claim C9 -/

/-- Claim C9: for every session value with both tokens non-empty,
`setTokens` followed immediately by the getters returns exactly the pair
that was set; `clearAuth` followed by the getters returns absent in every
field; and `clearAuth` is idempotent. -/
theorem set_get_clear_roundtrip (t : AuthTokens) (s : AuthState)
    (h1 : t.accessToken ≠ "") (h2 : t.refreshToken ≠ "") :
    getAccessToken (setTokens t s) = some t.accessToken ∧
    getRefreshToken (setTokens t s) = some t.refreshToken ∧
    getAccessToken (clearAuth s) = none ∧
    getRefreshToken (clearAuth s) = none ∧
    getUser (clearAuth s) = none ∧
    clearAuth (clearAuth s) = clearAuth s :=
  ⟨rfl, rfl, rfl, rfl, rfl, clearAuth_idem s⟩

/-- Witness for C9 at a concrete token pair and state. -/
theorem set_get_clear_roundtrip_check :
    (("a1" : String) ≠ "" ∧ ("r1" : String) ≠ "") ∧
    (getAccessToken (setTokens ⟨"a1", "r1", none, none⟩ freshState) = some "a1" ∧
     getRefreshToken (setTokens ⟨"a1", "r1", none, none⟩ freshState) = some "r1" ∧
     getAccessToken (clearAuth freshState) = none ∧
     getRefreshToken (clearAuth freshState) = none ∧
     getUser (clearAuth freshState) = none ∧
     clearAuth (clearAuth freshState) = clearAuth freshState) :=
  ⟨⟨by decide, by decide⟩,
   set_get_clear_roundtrip ⟨"a1", "r1", none, none⟩ freshState (by decide) (by decide)⟩

/-! ### Claim C7 -/

/-- Claim C7 counterexample: hydrating from a storage that holds an access
token but no refresh token leaves the store with the access token present
and the refresh token absent — a partially-initialized session observable
through the getters, refuting the both-present-or-both-absent invariant
for `loadFromStorage`. -/
theorem load_partial_session_cex :
    getAccessToken statePartial = some "acc0" ∧
    getRefreshToken statePartial = none := by
  constructor <;> rfl

/-- Claim C7 amended: `setTokens` and `clearAuth` always leave the two
token fields both present respectively both absent; `loadFromStorage`
preserves the pairing only when the two persisted keys are themselves
paired — it copies each key independently, so an unbalanced storage
produces a partially-present session. -/
theorem store_ops_token_pairing :
    (∀ t s, bothOrNone (setTokens t s)) ∧
    (∀ s, bothOrNone (clearAuth s)) ∧
    (∀ p st, (getItem st "accessToken").isSome = (getItem st "refreshToken").isSome →
      bothOrNone (loadFromStorage p st)) := by
  refine ⟨fun t s => rfl, fun s => rfl, fun p st h => ?_⟩
  unfold loadFromStorage bothOrNone
  split
  · split
    · exact h
    · rfl
  · exact h

/-- Witness for C7 amended at a concrete balanced storage. -/
theorem store_ops_token_pairing_check :
    ((getItem emptyStorage "accessToken").isSome
        = (getItem emptyStorage "refreshToken").isSome) ∧
    bothOrNone (loadFromStorage noUserParse emptyStorage) :=
  ⟨rfl, store_ops_token_pairing.2.2 noUserParse emptyStorage rfl⟩

/-! ### Claim C2 -/

/-- Claim C2 counterexample: from the reachable state hydrated out of an
unbalanced storage (access token present, refresh token absent),
`refreshTokens` fails because the refresh token is missing, yet it returns
with the store untouched: `getAccessToken` still answers the old token
instead of absent. -/
theorem refresh_failure_not_cleared_cex :
    (refreshTokens RefreshResult.notOk statePartial).1 = false ∧
    getAccessToken (refreshTokens RefreshResult.notOk statePartial).2.1 = some "acc0" := by
  constructor <;> rfl

/-- Claim C2 amended: when `refreshTokens` fails because the server
rejected the refresh request or the exchange threw, the Session Store is
cleared before it returns, so both getters answer absent immediately
afterwards; when it fails because no truthy refresh token is present, the
state is returned unchanged (the store is only absent afterwards if it
already was). -/
theorem refresh_failure_clears_store (net : RefreshResult) (s : AuthState)
    (hrt : truthy s.refreshToken = true)
    (hfail : net = RefreshResult.notOk ∨ net = RefreshResult.exn) :
    ((refreshTokens net s).1 = false ∧
     getAccessToken (refreshTokens net s).2.1 = none ∧
     getRefreshToken (refreshTokens net s).2.1 = none ∧
     getUser (refreshTokens net s).2.1 = none) ∧
    (∀ net2 s2, truthy s2.refreshToken = false →
      refreshTokens net2 s2 = (false, s2, [])) := by
  constructor
  · rcases hfail with h | h <;> subst h <;>
      simp [refreshTokens, hrt, clearAuth, getAccessToken, getRefreshToken, getUser]
  · intro net2 s2 h2
    simp [refreshTokens, h2]

/-- Witness for C2 amended at a concrete full session and a server
rejection. -/
theorem refresh_failure_clears_store_check :
    (truthy stateFull.refreshToken = true ∧
     (RefreshResult.notOk = RefreshResult.notOk ∨
      RefreshResult.notOk = RefreshResult.exn)) ∧
    (((refreshTokens RefreshResult.notOk stateFull).1 = false ∧
      getAccessToken (refreshTokens RefreshResult.notOk stateFull).2.1 = none ∧
      getRefreshToken (refreshTokens RefreshResult.notOk stateFull).2.1 = none ∧
      getUser (refreshTokens RefreshResult.notOk stateFull).2.1 = none) ∧
     (∀ net2 s2, truthy s2.refreshToken = false →
       refreshTokens net2 s2 = (false, s2, []))) :=
  ⟨⟨rfl, Or.inl rfl⟩,
   refresh_failure_clears_store RefreshResult.notOk stateFull rfl (Or.inl rfl)⟩

/-! ### Claim C6 -/

/-- Claim C6: a gateway call made while no truthy access token is present
fails immediately with the thrown `No access token available` error, the
state is untouched, and the trace of network calls is empty — in
particular no request carrying a bearer header with an empty value is ever
sent. -/
theorem authFetch_no_session (url : String) (opts : RequestOptions)
    (resp1 resp2 : HttpResponse) (net : RefreshResult) (s : AuthState)
    (h : truthy s.accessToken = false) :
    authFetch url opts resp1 resp2 net s = (AuthFetchResult.noToken, s, []) := by
  simp [authFetch, h]

/-- Witness for C6 on a fresh manager with no session. -/
theorem authFetch_no_session_check :
    truthy freshState.accessToken = false ∧
    authFetch "/api/data" ⟨fun _ => none⟩ ⟨200⟩ ⟨200⟩ RefreshResult.notOk freshState
      = (AuthFetchResult.noToken, freshState, []) :=
  ⟨rfl, authFetch_no_session "/api/data" ⟨fun _ => none⟩ ⟨200⟩ ⟨200⟩
    RefreshResult.notOk freshState rfl⟩

/-! ### Claim C10 -/

/-- Claim C10: when the caller's `options.headers` carries an
`Authorization` entry, the spread places caller headers after the
defaults, so the first request goes out with the caller-supplied
`Authorization` value rather than the bearer header built from the
session's current access token. -/
theorem authFetch_caller_auth_header (url : String) (opts : RequestOptions)
    (resp1 resp2 : HttpResponse) (net : RefreshResult) (s : AuthState) (v : String)
    (hTok : truthy s.accessToken = true)
    (hAuth : opts.headers "Authorization" = some v) :
    ((authFetch url opts resp1 resp2 net s).2.2).head?
      = some (NetCall.httpReq url (buildHeaders ((s.accessToken).getD "") opts.headers)) ∧
    buildHeaders ((s.accessToken).getD "") opts.headers "Authorization" = some v := by
  constructor
  · unfold authFetch
    rw [hTok]
    simp only [if_true]
    split
    · split <;> simp
    · simp
  · simp [buildHeaders, hAuth]

/-- A caller options object overriding the `Authorization` header. -/
def callerOpts : RequestOptions :=
  ⟨fun k => if k = "Authorization" then some "Token custom" else none⟩

/-- Witness for C10 with a concrete caller-supplied header. -/
theorem authFetch_caller_auth_header_check :
    (truthy stateFull.accessToken = true ∧
     callerOpts.headers "Authorization" = some "Token custom") ∧
    (((authFetch "/api/data" callerOpts ⟨200⟩ ⟨200⟩ RefreshResult.notOk stateFull).2.2).head?
        = some (NetCall.httpReq "/api/data"
            (buildHeaders ((stateFull.accessToken).getD "") callerOpts.headers)) ∧
     buildHeaders ((stateFull.accessToken).getD "") callerOpts.headers "Authorization"
        = some "Token custom") :=
  ⟨⟨rfl, rfl⟩,
   authFetch_caller_auth_header "/api/data" callerOpts ⟨200⟩ ⟨200⟩
     RefreshResult.notOk stateFull "Token custom" rfl rfl⟩

/-! ### Claim C3 -/

theorem countHttp_refreshTokens (net : RefreshResult) (s : AuthState) :
    countHttp (refreshTokens net s).2.2 = 0 := by
  unfold refreshTokens
  split
  · cases net <;> rfl
  · rfl

/-- Claim C3: the gateway invokes a refresh exactly on a 401 first
response — any other status is returned unchanged with no refresh exchange
and no state change — and after a successful refresh the original request
is resent exactly once carrying the renewed bearer token, with the second
response returned verbatim and no further retry; when the refresh fails,
the lone first response is returned and nothing is resent. -/
theorem authFetch_retry_policy (url : String) (opts : RequestOptions)
    (resp1 resp2 : HttpResponse) (net : RefreshResult) (s : AuthState)
    (hTok : truthy s.accessToken = true) :
    (resp1.status ≠ 401 →
      authFetch url opts resp1 resp2 net s
        = (AuthFetchResult.response resp1, s,
           [NetCall.httpReq url (buildHeaders ((s.accessToken).getD "") opts.headers)])) ∧
    (∀ t, resp1.status = 401 → net = RefreshResult.ok t → truthy s.refreshToken = true →
      authFetch url opts resp1 resp2 net s
        = (AuthFetchResult.response resp2, setTokens t s,
           [NetCall.httpReq url (buildHeaders ((s.accessToken).getD "") opts.headers),
            NetCall.refreshReq ((s.refreshToken).getD ""),
            NetCall.httpReq url
              (setHeader (buildHeaders ((s.accessToken).getD "") opts.headers)
                "Authorization" ("Bearer " ++ t.accessToken))]) ∧
      setHeader (buildHeaders ((s.accessToken).getD "") opts.headers)
          "Authorization" ("Bearer " ++ t.accessToken) "Authorization"
        = some ("Bearer " ++ t.accessToken)) ∧
    (resp1.status = 401 → (refreshTokens net s).1 = false →
      (authFetch url opts resp1 resp2 net s).1 = AuthFetchResult.response resp1 ∧
      countHttp (authFetch url opts resp1 resp2 net s).2.2 = 1) := by
  refine ⟨?_, ?_, ?_⟩
  · intro h
    simp [authFetch, hTok, h]
  · intro t h401 hnet hrt
    subst hnet
    constructor
    · simp [authFetch, hTok, h401, refreshTokens, hrt, getAccessToken, setTokens]
    · simp [setHeader]
  · intro h401 hfail
    have hcalls := countHttp_refreshTokens net s
    rcases hr : refreshTokens net s with ⟨b, s', rcalls⟩
    rw [hr] at hfail hcalls
    simp only at hfail hcalls
    subst hfail
    constructor
    · simp [authFetch, hTok, h401, hr]
    · simp [authFetch, hTok, h401, hr, countHttp, hcalls]

/-- Witness for C3 with a concrete full session, a 401 first response and a
successful renewal: the renewed pair is stored, the request is resent once
with the renewed bearer token, and the second response is returned. -/
theorem authFetch_retry_policy_check :
    (truthy stateFull.accessToken = true ∧
     truthy stateFull.refreshToken = true) ∧
    authFetch "/api/data" ⟨fun _ => none⟩ ⟨401⟩ ⟨200⟩
        (RefreshResult.ok renewedTokens) stateFull
      = (AuthFetchResult.response ⟨200⟩, setTokens renewedTokens stateFull,
         [NetCall.httpReq "/api/data"
            (buildHeaders ((stateFull.accessToken).getD "") (fun _ => none)),
          NetCall.refreshReq ((stateFull.refreshToken).getD ""),
          NetCall.httpReq "/api/data"
            (setHeader (buildHeaders ((stateFull.accessToken).getD "") (fun _ => none))
              "Authorization" ("Bearer " ++ renewedTokens.accessToken))]) :=
  ⟨⟨rfl, rfl⟩,
   (((authFetch_retry_policy "/api/data" ⟨fun _ => none⟩ ⟨401⟩ ⟨200⟩
      (RefreshResult.ok renewedTokens) stateFull rfl).2.1
        renewedTokens rfl rfl rfl).1)⟩

/-! ### Claim C5 -/

/-- Claim C5 counterexample: in the reachable state with an access token
but no refresh token, a 401 first response leads to a failed renewal, yet
the gateway hands the caller the plain first 401 response and the Session
Store is NOT left cleared — `getAccessToken` still answers the old token.
(The embedding also shows no distinct SessionExpired error value exists:
`AuthFetchResult` has only the thrown no-token error and plain responses.) -/
theorem failed_refresh_not_cleared_cex :
    (authFetch "/api/data" ⟨fun _ => none⟩ ⟨401⟩ ⟨200⟩
        RefreshResult.notOk statePartial).1 = AuthFetchResult.response ⟨401⟩ ∧
    getAccessToken (authFetch "/api/data" ⟨fun _ => none⟩ ⟨401⟩ ⟨200⟩
        RefreshResult.notOk statePartial).2.1 = some "acc0" := by
  constructor <;> rfl

/-- Claim C5 amended: on a 401 first response whose renewal fails, the
gateway returns the original 401 response itself to the caller (session
expiry is signalled only through that response — the code has no separate
SessionExpired error), and when the renewal failed by server rejection or
a thrown exchange the Session Store is left cleared; when it failed for
lack of a refresh token the store is left as it was. -/
theorem failed_refresh_returns_first_response (url : String) (opts : RequestOptions)
    (resp1 resp2 : HttpResponse) (net : RefreshResult) (s : AuthState)
    (hTok : truthy s.accessToken = true) (h401 : resp1.status = 401)
    (hrt : truthy s.refreshToken = true)
    (hfail : net = RefreshResult.notOk ∨ net = RefreshResult.exn) :
    (authFetch url opts resp1 resp2 net s).1 = AuthFetchResult.response resp1 ∧
    getAccessToken (authFetch url opts resp1 resp2 net s).2.1 = none ∧
    getRefreshToken (authFetch url opts resp1 resp2 net s).2.1 = none := by
  rcases hfail with h | h <;> subst h <;>
    simp [authFetch, hTok, h401, refreshTokens, hrt, clearAuth,
      getAccessToken, getRefreshToken]

/-- Witness for C5 amended with a concrete full session and a server
rejection of the refresh. -/
theorem failed_refresh_returns_first_response_check :
    (truthy stateFull.accessToken = true ∧ (⟨401⟩ : HttpResponse).status = 401 ∧
     truthy stateFull.refreshToken = true ∧
     (RefreshResult.notOk = RefreshResult.notOk ∨
      RefreshResult.notOk = RefreshResult.exn)) ∧
    ((authFetch "/api/data" ⟨fun _ => none⟩ ⟨401⟩ ⟨200⟩
        RefreshResult.notOk stateFull).1 = AuthFetchResult.response ⟨401⟩ ∧
     getAccessToken (authFetch "/api/data" ⟨fun _ => none⟩ ⟨401⟩ ⟨200⟩
        RefreshResult.notOk stateFull).2.1 = none ∧
     getRefreshToken (authFetch "/api/data" ⟨fun _ => none⟩ ⟨401⟩ ⟨200⟩
        RefreshResult.notOk stateFull).2.1 = none) :=
  ⟨⟨rfl, rfl, rfl, Or.inl rfl⟩,
   failed_refresh_returns_first_response "/api/data" ⟨fun _ => none⟩ ⟨401⟩ ⟨200⟩
     RefreshResult.notOk stateFull rfl rfl rfl (Or.inl rfl)⟩

/-! ### Claim C1 -/

theorem countRefresh_flatten_const (rt : String) (l : List RefreshResult) :
    countRefresh ((l.map (fun _ => [NetCall.refreshReq rt])).flatten) = l.length := by
  induction l with
  | nil => rfl
  | cons a r ih =>
    simp only [List.map_cons, List.flatten_cons, List.append_eq, List.cons_append, List.nil_append,
      countRefresh, ih, List.length_cons]

/-- Claim C1 counterexample: two `refreshTokens` calls issued concurrently
against a full session (both arriving before either exchange resolves, the
situation single-flight deduplication is about) send TWO refresh exchanges
to the transport, not exactly one. -/
theorem concurrent_refresh_singleflight_cex :
    countRefresh (runConcurrentRefresh
      [RefreshResult.ok renewedTokens, RefreshResult.ok renewedTokens] stateFull).2.2 = 2 ∧
    countRefresh (runConcurrentRefresh
      [RefreshResult.ok renewedTokens, RefreshResult.ok renewedTokens] stateFull).2.2 ≠ 1 := by
  constructor
  · rfl
  · decide

/-- Claim C1 amended: `refreshTokens` has no single-flight deduplication
and no shared in-flight handle: each of N concurrent callers that observes
a truthy refresh token issues its own refresh exchange, so N concurrent
callers produce exactly N exchanges on the transport. -/
theorem concurrent_refresh_exchange_count (nets : List RefreshResult) (s0 : AuthState)
    (hrt : truthy s0.refreshToken = true) :
    countRefresh (runConcurrentRefresh nets s0).2.2 = nets.length := by
  have h1 : refreshSeg1 s0
      = (RefreshPhase.awaitingResponse ((s0.refreshToken).getD ""),
         [NetCall.refreshReq ((s0.refreshToken).getD "")]) := by
    simp [refreshSeg1, hrt]
  show countRefresh
      (((nets.map (fun net => (refreshSeg1 s0, net))).map (fun p => p.1.2)).flatten)
    = nets.length
  simp only [h1]
  induction nets with
  | nil => rfl
  | cons a r ih =>
    simp only [List.map_cons, List.flatten_cons, List.append_eq, List.cons_append, List.nil_append,
      countRefresh, ih, List.length_cons]

/-- Witness for C1 amended: a single caller with a truthy refresh token
issues exactly one exchange. -/
theorem concurrent_refresh_exchange_count_check :
    truthy stateFull.refreshToken = true ∧
    countRefresh (runConcurrentRefresh [RefreshResult.notOk] stateFull).2.2
      = [RefreshResult.notOk].length :=
  ⟨rfl, concurrent_refresh_exchange_count [RefreshResult.notOk] stateFull rfl⟩

/-! ### Claim C4 -/

/-- The flow state at the login page before any submission. -/
def flowStart : FlowState :=
  { auth := freshState, session := emptyStorage, route := "/login" }

/-- The flow state after the server demanded a second factor for
`a@b.com` / `p1`: the raw credentials sit in `sessionStorage`. -/
def flowPending : FlowState :=
  handleSubmit "a@b.com" "p1" LoginOutcome.requiresMfa flowStart

/-- Claim C4 counterexample: abandoning the pending-challenge flow through
the sign-in-with-a-different-account exit clears the `AuthManager` state
but leaves the raw email and password in `sessionStorage` — the transient
credentials survive a terminal (abandoned) state. -/
theorem abandoned_flow_retains_credentials_cex :
    getItem (signInWithDifferentAccount flowPending).session "tempLoginEmail"
      = some "a@b.com" ∧
    getItem (signInWithDifferentAccount flowPending).session "tempLoginPassword"
      = some "p1" := by
  constructor <;> rfl

/-- Claim C4 amended: the pending credentials are removed from
`sessionStorage` on the successful-verification exit path; the abandon exit
(sign in with a different account) does not touch `sessionStorage` at all,
so credentials stashed there stay behind. -/
theorem pending_credentials_cleanup (fs : FlowState) (t : AuthTokens) (c : String)
    (mfaNet : VerifyMfaResult) (hlen : c.length = 6)
    (he : truthy (getItem fs.session "tempLoginEmail") = true)
    (hp : truthy (getItem fs.session "tempLoginPassword") = true) :
    (getItem ((handleVerify (some c) [] (VerifyLoginResult.ok t) mfaNet fs).1).session
        "tempLoginEmail" = none ∧
     getItem ((handleVerify (some c) [] (VerifyLoginResult.ok t) mfaNet fs).1).session
        "tempLoginPassword" = none) ∧
    (signInWithDifferentAccount fs).session = fs.session := by
  have hce : c.isEmpty = false := by
    cases hz : c.isEmpty
    · rfl
    · rw [String.isEmpty_iff] at hz; subst hz; simp at hlen
  have hcode : resolveCode (some c) [] = c := by
    simp [resolveCode, hce]
  have he2 : truthy (fs.session "tempLoginEmail") = true := he
  have hp2 : truthy (fs.session "tempLoginPassword") = true := hp
  refine ⟨?_, rfl⟩
  simp [handleVerify, hcode, hlen, he2, hp2, getItem, removeItem]

/-- Witness for C4 amended on the concrete pending flow state and the
accepted code 482913. -/
theorem pending_credentials_cleanup_check :
    (("482913" : String).length = 6 ∧
     truthy (getItem flowPending.session "tempLoginEmail") = true ∧
     truthy (getItem flowPending.session "tempLoginPassword") = true) ∧
    ((getItem ((handleVerify (some "482913") [] (VerifyLoginResult.ok renewedTokens)
        VerifyMfaResult.err flowPending).1).session "tempLoginEmail" = none ∧
      getItem ((handleVerify (some "482913") [] (VerifyLoginResult.ok renewedTokens)
        VerifyMfaResult.err flowPending).1).session "tempLoginPassword" = none) ∧
     (signInWithDifferentAccount flowPending).session = flowPending.session) :=
  ⟨⟨by decide, rfl, rfl⟩,
   pending_credentials_cleanup flowPending renewedTokens "482913"
     VerifyMfaResult.err (by decide) rfl rfl⟩

/-! ### Claim C8 -/

/-- Claim C8 counterexample: `handleVerify` checks only the length of the
code, so the six-character code `a1b2c3`, which contains non-digit
characters, is NOT rejected locally: it is sent to the transport in a
login exchange, and the resulting error is the server rejection, not a
local format error. -/
theorem nondigit_code_network_call_cex :
    (handleVerify (some "a1b2c3") [] VerifyLoginResult.err VerifyMfaResult.err
        flowPending).2.1 = [NetCall.loginReq "a@b.com" "p1" "a1b2c3"] ∧
    (handleVerify (some "a1b2c3") [] VerifyLoginResult.err VerifyMfaResult.err
        flowPending).2.2 = some "Invalid verification code" := by
  constructor <;> rfl

/-- Claim C8 amended: a submitted code whose resolved length is not 6
fails locally with the format error and issues no network call; the
non-digit case is guarded only upstream — the per-box input handler
admits nothing but single digits into the OTP state, while `handleVerify`
itself lets any six-character code through to the network. -/
theorem code_length_guard (code : Option String) (otp : List String)
    (loginNet : VerifyLoginResult) (mfaNet : VerifyMfaResult) (fs : FlowState)
    (h : (resolveCode code otp).length ≠ 6) :
    handleVerify code otp loginNet mfaNet fs
      = (fs, [], some "Please enter a complete 6-digit code") ∧
    (∀ boxes i v, (∀ d ∈ boxes, d.all Char.isDigit = true) →
      ∀ d ∈ handleChange boxes i v, d.all Char.isDigit = true) := by
  constructor
  · simp [handleVerify, h]
  · intro boxes i v hall d hd
    unfold handleChange at hd
    split_ifs at hd with h1 h2
    · exact hall d hd
    · exact hall d hd
    · rcases List.mem_or_eq_of_mem_set hd with hmem | heq
      · exact hall d hmem
      · subst heq
        simpa using h2

/-- Witness for C8 amended: the five-character code 12345 is rejected
locally with no network call. -/
theorem code_length_guard_check :
    (resolveCode (some "12345") []).length ≠ 6 ∧
    (handleVerify (some "12345") [] VerifyLoginResult.err VerifyMfaResult.err flowStart
       = (flowStart, [], some "Please enter a complete 6-digit code") ∧
     (∀ boxes i v, (∀ d ∈ boxes, d.all Char.isDigit = true) →
       ∀ d ∈ handleChange boxes i v, d.all Char.isDigit = true)) :=
  ⟨by decide,
   code_length_guard (some "12345") [] VerifyLoginResult.err VerifyMfaResult.err
     flowStart (by decide)⟩
